import Mathlib

/-!
Verification of the timesheet-to-payroll computation engine of the HRM
web application.

Conventions of the shallow embedding:
* All JavaScript numbers are modelled as rationals (`ℚ`).
* Timestamps inside a submission are measured in milliseconds relative to
  midnight of the clock-in's calendar day: `setHours(h, m, s, ms)` on a
  copy of `clockIn` yields the constant `h*3600000 + m*60000 + s*1000 + ms`,
  and `clockIn.getTime()` / `clockOut.getTime()` are the submitted offsets.
* The Prisma timesheet table is a function from the unique key
  `(employeeId, date)` to an optional row.
-/

namespace HRM

/-- Timesheet status enum (PENDING / APPROVED / REJECTED). -/
inductive TimesheetStatus where
  | PENDING
  | APPROVED
  | REJECTED
deriving DecidableEq

/-- Milliseconds in one hour: the divisor `1000 * 60 * 60` used throughout
`calculateOvertime` in `src/app/api/timesheets/route.ts`. -/
def msPerHour : ℚ := 1000 * 60 * 60

/-- Result record of `calculateOvertime` (route.ts lines 60-66). -/
structure OvertimeResult where
  normalHours : ℚ
  ot1_5Hours : ℚ
  ot2Hours : ℚ
  totalHours : ℚ
  overtimePay : ℚ
deriving DecidableEq

/-- Overlap of the submitted interval with one tier window, in hours
(route.ts lines 40-44): `periodStart = max(clockIn, period.start)`,
`periodEnd = min(clockOut, period.end)`, contributing
`(periodEnd - periodStart) / msPerHour` only when `periodEnd > periodStart`. -/
def periodHours (clockIn clockOut wStart wEnd : ℚ) : ℚ :=
  if max clockIn wStart < min clockOut wEnd then
    (min clockOut wEnd - max clockIn wStart) / msPerHour
  else 0

/-- Shallow embedding of `calculateOvertime` (route.ts lines 6-67).
Window constants, anchored to the clock-in day's midnight (= 0):
normal `[8h, 17h]`, evening (ot1.5) `[17h, 23:59:59.999]` where
`23:59:59.999 = 86399999 ms`, night (ot2) `[0, 8h]`.  The NORMAL bucket is
`Math.min(hoursInPeriod, 8)` (an assignment inside the guard, so 0 when the
overlap is empty, which `min (periodHours ...) 8` also gives since
`periodHours` is 0 on empty overlaps); each returned hour field is wrapped
in `Math.max(0, _)`; `overtimePay` is computed from the unclamped
accumulators. -/
def calculateOvertime (clockIn clockOut hourlyRate : ℚ) : OvertimeResult :=
  let totalHours := (clockOut - clockIn) / msPerHour
  let normalHours := min (periodHours clockIn clockOut (8 * msPerHour) (17 * msPerHour)) 8
  let ot1_5Hours := periodHours clockIn clockOut (17 * msPerHour) 86399999
  let ot2Hours := periodHours clockIn clockOut 0 (8 * msPerHour)
  { normalHours := max 0 normalHours
    ot1_5Hours := max 0 ot1_5Hours
    ot2Hours := max 0 ot2Hours
    totalHours := max 0 totalHours
    overtimePay := ot1_5Hours * hourlyRate * 1.5 + ot2Hours * hourlyRate * 2 }

/-- Shallow embedding of the break-time adjustment in the POST handler
(route.ts lines 182-185): `breakHours = breakMinutes / 60`, then
`normalHours = Math.max(0, normalHours - breakHours)` and
`totalHours = Math.max(0, totalHours - breakHours)`; the evening and night
buckets and `overtimePay` are not touched. -/
def applyBreakAdjustment (oc : OvertimeResult) (breakMinutes : ℚ) : OvertimeResult :=
  let breakHours := breakMinutes / 60
  { oc with
    normalHours := max 0 (oc.normalHours - breakHours)
    totalHours := max 0 (oc.totalHours - breakHours) }

/-- Request body of POST /api/timesheets (route.ts line 155); `clockOut`
may be absent/null. -/
structure SubmitInput where
  employeeId : ℕ
  date : ℤ
  clockIn : ℚ
  clockOut : Option ℚ
  breakMinutes : ℚ
  projectAssignmentId : Option ℕ
deriving DecidableEq

/-- Derived hour/pay fields of a submission (route.ts lines 172-185):
`clockOutTime = clockOut ? new Date(clockOut) : new Date()` — a null
clock-out defaults to the current time `now` — then `calculateOvertime`
followed by the break adjustment. -/
def deriveTimesheet (inp : SubmitInput) (now hourlyRate : ℚ) : OvertimeResult :=
  let clockOutTime := inp.clockOut.getD now
  applyBreakAdjustment (calculateOvertime inp.clockIn clockOutTime hourlyRate) inp.breakMinutes

/-- Stored timesheet row (columns written by the upsert, route.ts 188-218). -/
structure TimesheetEntry where
  clockIn : ℚ
  clockOut : ℚ
  breakMinutes : ℚ
  normalHours : ℚ
  ot1_5Hours : ℚ
  ot2Hours : ℚ
  totalHours : ℚ
  projectAssignmentId : Option ℕ
  status : TimesheetStatus
deriving DecidableEq

/-- Row written by the upsert: identical field lists in its `update` and
`create` branches, both with `status: PENDING` (route.ts lines 195-218). -/
def mkEntry (inp : SubmitInput) (now hourlyRate : ℚ) : TimesheetEntry :=
  let oc := deriveTimesheet inp now hourlyRate
  { clockIn := inp.clockIn
    clockOut := inp.clockOut.getD now
    breakMinutes := inp.breakMinutes
    normalHours := oc.normalHours
    ot1_5Hours := oc.ot1_5Hours
    ot2Hours := oc.ot2Hours
    totalHours := oc.totalHours
    projectAssignmentId := inp.projectAssignmentId
    status := .PENDING }

/-- The timesheet table keyed by the unique `(employeeId, date)` pair. -/
def Ledger : Type := ℕ × ℤ → Option TimesheetEntry

/-- Shallow embedding of `db.timesheet.upsert` as performed by the POST
handler (route.ts lines 188-230): the row at key `(employeeId, date)` is
unconditionally replaced (created or updated) by the freshly derived entry;
no status check guards the write. -/
def submitTimesheet (L : Ledger) (inp : SubmitInput) (now hourlyRate : ℚ) : Ledger :=
  fun k => if k = (inp.employeeId, inp.date) then some (mkEntry inp now hourlyRate) else L k

/-- Shallow embedding of the SQL function `calculate_overtime_pay`
(init.sql lines 113-122): `(p_ot1_5_hours * p_hourly_rate * 1.5) +
(p_ot2_hours * p_hourly_rate * 2)`; the `p_normal_hours` argument is
declared but unused. -/
def calculate_overtime_pay (pNormalHours pOt1_5Hours pOt2Hours pHourlyRate : ℚ) : ℚ :=
  pOt1_5Hours * pHourlyRate * 1.5 + pOt2Hours * pHourlyRate * 2

/-- Columns of a `timesheets` row read by the trigger
`update_project_actual_cost` (init.sql lines 125-140). -/
structure TimesheetRow where
  status : TimesheetStatus
  normal_hours : ℚ
  ot1_5_hours : ℚ
  ot2_hours : ℚ
  employee_id : ℕ
  project_assignment_id : Option ℕ
deriving DecidableEq

/-- Shallow embedding of the AFTER UPDATE row trigger
`update_project_actual_cost` (init.sql lines 125-147).  `rates` is the
`employees.hourly_rate` column, `assignments` maps a
`project_assignments.id` to its `project_id`, and `projects` is the
`projects.actual_cost` column.  The accrual fires only when
`NEW.status = APPROVED AND OLD.status != APPROVED`; a NULL
`project_assignment_id` (or a dangling one) makes the UPDATE's
`WHERE id = (SELECT project_id ...)` match no project row. -/
def update_project_actual_cost (rates : ℕ → ℚ) (assignments : ℕ → Option ℕ)
    (old new : TimesheetRow) (projects : ℕ → ℚ) : ℕ → ℚ :=
  if new.status = .APPROVED ∧ old.status ≠ .APPROVED then
    match new.project_assignment_id.bind assignments with
    | some pid =>
        fun p =>
          if p = pid then
            projects p +
              (new.normal_hours * rates new.employee_id +
                calculate_overtime_pay new.normal_hours new.ot1_5_hours new.ot2_hours
                  (rates new.employee_id))
          else projects p
    | none => projects
  else projects

/-- One approval action: an UPDATE that sets the row's status to APPROVED,
leaving the hour columns unchanged, with the row trigger applied to the
(OLD, NEW) pair.  Concurrent approvals of the same row are serialized by
the row lock of the UPDATE, so a race is modelled as two sequential
applications of this step. -/
def approveTimesheet (rates : ℕ → ℚ) (assignments : ℕ → Option ℕ)
    (s : TimesheetRow × (ℕ → ℚ)) : TimesheetRow × (ℕ → ℚ) :=
  let old := s.1
  let new := { old with status := TimesheetStatus.APPROVED }
  (new, update_project_actual_cost rates assignments old new s.2)

/-- Ledger row as seen by the payroll aggregator. -/
structure PayrollRow where
  employeeId : ℕ
  date : ℤ
  normalHours : ℚ
  eveningHours : ℚ
  nightHours : ℚ
  status : TimesheetStatus
deriving DecidableEq

/-- Payroll period totals. -/
structure PayrollPeriodSummary where
  normalHours : ℚ
  eveningHours : ℚ
  nightHours : ℚ
  pay : ℚ
deriving DecidableEq

/-- Modelled from the spec: the repository ships no payroll-aggregation
source under src/ (the payroll route is absent), so `getPayrollSummary` is
modelled from spec section 4.4: given employeeId and an inclusive date
range, sum normalHours/eveningHours/nightHours and computed pay
(normal×rate + evening×rate×1.5 + night×rate×2.0, spec section 3) across
all entries with status = APPROVED whose date falls in range; zero totals
when nothing matches. -/
def getPayrollSummary (rows : List PayrollRow) (emp : ℕ) (startDate endDate : ℤ)
    (hourlyRate : ℚ) : PayrollPeriodSummary :=
  let sel := rows.filter fun r =>
    decide (r.employeeId = emp ∧ startDate ≤ r.date ∧ r.date ≤ endDate ∧
      r.status = TimesheetStatus.APPROVED)
  { normalHours := (sel.map (·.normalHours)).sum
    eveningHours := (sel.map (·.eveningHours)).sum
    nightHours := (sel.map (·.nightHours)).sum
    pay := (sel.map (fun r =>
        r.normalHours * hourlyRate + r.eveningHours * hourlyRate * 1.5 +
          r.nightHours * hourlyRate * 2)).sum }

/-- Authenticated user as produced by `verifyAuth` (src/lib/auth.ts lines
7-14); `verifyAuth` returns `null` (here `none`) for missing or invalid
credentials. -/
structure AuthUser where
  id : String
  email : String
  name : String
  companyId : Option String
  roles : List String
  permissions : List String

/-- Shallow embedding of `hasPermission` (src/lib/auth.ts lines 64-67):
`if (!user) return false; return user.permissions.includes(permission) ||
user.permissions.includes(star)` where star is the wildcard string. -/
def hasPermission (user : Option AuthUser) (permission : String) : Bool :=
  match user with
  | none => false
  | some u => u.permissions.contains permission || u.permissions.contains "*"

/-- Employee-creation request fields relevant to the hourly rate: the
submitted `basicSalary` and whatever `hourlyRate` the request body may
carry. -/
structure EmployeeCreateData where
  basicSalary : ℚ
  hourlyRate : Option ℚ
deriving DecidableEq

/-- Stored employee columns relevant to the claim. -/
structure EmployeeRecord where
  basicSalary : ℚ
  hourlyRate : ℚ
deriving DecidableEq

/-- Shallow embedding of the first POST /api/employees handler
(src/unnamed/part_002 lines 83-98): `hourlyRate = Number(data.basicSalary)
* 12 / 2288`, and the create call spreads the request body first and then
overrides `hourlyRate` with the computed value (later keys win), so a
submitted rate never reaches the store. -/
def createEmployee1 (data : EmployeeCreateData) : EmployeeRecord :=
  let spread : EmployeeRecord :=
    { basicSalary := data.basicSalary, hourlyRate := data.hourlyRate.getD 0 }
  { spread with hourlyRate := data.basicSalary * 12 / 2288 }

/-- JavaScript `Number(x.toFixed(2))`: round to two decimal places. -/
def roundTo2 (x : ℚ) : ℚ := (round (x * 100) : ℤ) / 100

/-- Shallow embedding of the second POST /api/employees handler
(src/unnamed/part_002 lines 248-279): the destructured body has no
`hourlyRate` field; `hourlyRate = (Number(basicSalary) * 12) / 2288`,
stored as `Number(hourlyRate.toFixed(2))`. -/
def createEmployee2 (data : EmployeeCreateData) : EmployeeRecord :=
  { basicSalary := data.basicSalary
    hourlyRate := roundTo2 (data.basicSalary * 12 / 2288) }

/-- Concrete APPROVED row used to exercise the resubmission path. -/
def approvedEntry0 : TimesheetEntry :=
  ⟨32400000, 61200000, 0, 8, 0, 0, 8, none, .APPROVED⟩

/-- Ledger holding one APPROVED row at key (1, 0). -/
def approvedLedger : Ledger :=
  fun k => if k = (1, 0) then some approvedEntry0 else none

/-- Resubmission for employee 1 on date 0 with clock-out 19:00. -/
def resubmitInput0 : SubmitInput := ⟨1, 0, 32400000, some 68400000, 0, none⟩

/-- Submission whose clock-out (09:00) precedes its clock-in (17:00). -/
def invalidInput0 : SubmitInput := ⟨1, 0, 61200000, some 32400000, 0, none⟩

/-- Ledger with no rows. -/
def emptyLedger : Ledger := fun _ => none

/-- Submission with a null clock-out. -/
def openInput0 : SubmitInput := ⟨1, 0, 32400000, none, 0, none⟩

/-- Raw (millisecond) overlap of the submitted interval with a window,
before the division by `msPerHour`. -/
def ovRaw (a b p q : ℚ) : ℚ :=
  if max a p < min b q then min b q - max a p else 0

lemma msPerHour_pos : (0 : ℚ) < msPerHour := by norm_num [msPerHour]

lemma periodHours_eq_ovRaw (a b p q : ℚ) :
    periodHours a b p q = ovRaw a b p q / msPerHour := by
  unfold periodHours ovRaw
  split_ifs with h
  · rfl
  · exact (zero_div _).symm

lemma ovRaw_nonneg (a b p q : ℚ) : 0 ≤ ovRaw a b p q := by
  unfold ovRaw
  split_ifs with h
  · linarith
  · exact le_refl 0

lemma periodHours_nonneg (a b p q : ℚ) : 0 ≤ periodHours a b p q := by
  rw [periodHours_eq_ovRaw]
  exact div_nonneg (ovRaw_nonneg a b p q) (le_of_lt msPerHour_pos)

lemma periodHours_zero_of_le (a b p q : ℚ) (h : b ≤ a) : periodHours a b p q = 0 := by
  unfold periodHours
  split_ifs with hlt
  · exfalso
    have h1 : min b q ≤ b := min_le_left b q
    have h2 : a ≤ max a p := le_max_left a p
    linarith
  · rfl

lemma ovRaw_split (a b p q r : ℚ) (hpq : p ≤ q) (hqr : q ≤ r) :
    ovRaw a b p q + ovRaw a b q r = ovRaw a b p r := by
  unfold ovRaw
  simp only [max_def, min_def]
  split_ifs <;> linarith

lemma calculateOvertime_normalHours (clockIn clockOut hourlyRate : ℚ) :
    (calculateOvertime clockIn clockOut hourlyRate).normalHours =
      max 0 (min (periodHours clockIn clockOut (8 * msPerHour) (17 * msPerHour)) 8) := rfl

lemma calculateOvertime_ot1_5Hours (clockIn clockOut hourlyRate : ℚ) :
    (calculateOvertime clockIn clockOut hourlyRate).ot1_5Hours =
      max 0 (periodHours clockIn clockOut (17 * msPerHour) 86399999) := rfl

lemma calculateOvertime_ot2Hours (clockIn clockOut hourlyRate : ℚ) :
    (calculateOvertime clockIn clockOut hourlyRate).ot2Hours =
      max 0 (periodHours clockIn clockOut 0 (8 * msPerHour)) := rfl

lemma calculateOvertime_totalHours (clockIn clockOut hourlyRate : ℚ) :
    (calculateOvertime clockIn clockOut hourlyRate).totalHours =
      max 0 ((clockOut - clockIn) / msPerHour) := rfl

lemma applyBreakAdjustment_fields (oc : OvertimeResult) (b : ℚ) :
    (applyBreakAdjustment oc b).normalHours = max 0 (oc.normalHours - b / 60) ∧
    (applyBreakAdjustment oc b).ot1_5Hours = oc.ot1_5Hours ∧
    (applyBreakAdjustment oc b).ot2Hours = oc.ot2Hours ∧
    (applyBreakAdjustment oc b).totalHours = max 0 (oc.totalHours - b / 60) ∧
    (applyBreakAdjustment oc b).overtimePay = oc.overtimePay :=
  ⟨rfl, rfl, rfl, rfl, rfl⟩

/-- Claim C4 (corrected), counterexample to the claim as stated: for
clock-in 17:00, clock-out 19:00, break 60 minutes, the NORMAL bucket is
already 0, so per the claim the 1-hour remainder would be taken from the
EVENING bucket, leaving 1 evening hour; the code never touches the EVENING
bucket and leaves it at 2. -/
theorem C4_counterexample :
    (applyBreakAdjustment (calculateOvertime 61200000 68400000 1) 60).normalHours = 0 ∧
    (applyBreakAdjustment (calculateOvertime 61200000 68400000 1) 60).ot1_5Hours = 2 ∧
    (applyBreakAdjustment (calculateOvertime 61200000 68400000 1) 60).ot1_5Hours ≠ 1 := by
  norm_num [applyBreakAdjustment, calculateOvertime, periodHours, msPerHour, max_def, min_def]

/-- Claim C4 (amended): the break deduction subtracts break/60 hours from
the NORMAL bucket clamped at zero and from totalHours clamped at zero; no
remainder is ever applied to the EVENING or NIGHT buckets, which are left
unchanged.  The concrete example of the claim does hold: clock-in 09:00,
clock-out 19:00, break 60 minutes gives normalHours 7, eveningHours 2,
totalHours 9, overtimePay = 2 × rate × 1.5. -/
theorem C4_break_deduction (clockIn clockOut hourlyRate b rate : ℚ) :
    (applyBreakAdjustment (calculateOvertime clockIn clockOut hourlyRate) b).normalHours =
      max 0 ((calculateOvertime clockIn clockOut hourlyRate).normalHours - b / 60) ∧
    (applyBreakAdjustment (calculateOvertime clockIn clockOut hourlyRate) b).ot1_5Hours =
      (calculateOvertime clockIn clockOut hourlyRate).ot1_5Hours ∧
    (applyBreakAdjustment (calculateOvertime clockIn clockOut hourlyRate) b).ot2Hours =
      (calculateOvertime clockIn clockOut hourlyRate).ot2Hours ∧
    (applyBreakAdjustment (calculateOvertime clockIn clockOut hourlyRate) b).totalHours =
      max 0 ((calculateOvertime clockIn clockOut hourlyRate).totalHours - b / 60) ∧
    (applyBreakAdjustment (calculateOvertime 32400000 68400000 rate) 60).normalHours = 7 ∧
    (applyBreakAdjustment (calculateOvertime 32400000 68400000 rate) 60).ot1_5Hours = 2 ∧
    (applyBreakAdjustment (calculateOvertime 32400000 68400000 rate) 60).ot2Hours = 0 ∧
    (applyBreakAdjustment (calculateOvertime 32400000 68400000 rate) 60).totalHours = 9 ∧
    (applyBreakAdjustment (calculateOvertime 32400000 68400000 rate) 60).overtimePay =
      2 * rate * 1.5 := by
  refine ⟨rfl, rfl, rfl, rfl, ?_, ?_, ?_, ?_, ?_⟩ <;>
    norm_num [applyBreakAdjustment, calculateOvertime, periodHours, msPerHour,
      max_def, min_def]

/-- Claim C5 (corrected), counterexample to the claim as stated: for
clock-in 08:00, clock-out 17:00 the raw NORMAL-window overlap is 9 hours,
the cap reduces it to 8, so the tier totals sum to 8 while the elapsed
time is 9 hours. -/
theorem C5_counterexample :
    (calculateOvertime 28800000 61200000 1).normalHours +
        (calculateOvertime 28800000 61200000 1).ot1_5Hours +
        (calculateOvertime 28800000 61200000 1).ot2Hours = 8 ∧
    ((61200000 : ℚ) - 28800000) / msPerHour = 9 ∧
    (calculateOvertime 28800000 61200000 1).normalHours +
        (calculateOvertime 28800000 61200000 1).ot1_5Hours +
        (calculateOvertime 28800000 61200000 1).ot2Hours ≠
      ((61200000 : ℚ) - 28800000) / msPerHour := by
  norm_num [calculateOvertime, periodHours, msPerHour, max_def, min_def]

/-- Claim C5 (amended): for every same-day interval (0 ≤ clockIn <
clockOut ≤ 23:59:59.999 in ms from the anchor midnight) whose raw overlap
with the NORMAL window does not exceed 8 hours, the classifier's pre-break
outputs satisfy normalHours + ot1_5Hours + ot2Hours = elapsed hours; each
of the three tier totals is ≥ 0 unconditionally. -/
theorem C5_tier_sum (clockIn clockOut hourlyRate : ℚ)
    (h0 : 0 ≤ clockIn) (h1 : clockIn < clockOut) (h2 : clockOut ≤ 86399999)
    (hcap : periodHours clockIn clockOut (8 * msPerHour) (17 * msPerHour) ≤ 8) :
    (calculateOvertime clockIn clockOut hourlyRate).normalHours +
        (calculateOvertime clockIn clockOut hourlyRate).ot1_5Hours +
        (calculateOvertime clockIn clockOut hourlyRate).ot2Hours =
      (clockOut - clockIn) / msPerHour ∧
    0 ≤ (calculateOvertime clockIn clockOut hourlyRate).normalHours ∧
    0 ≤ (calculateOvertime clockIn clockOut hourlyRate).ot1_5Hours ∧
    0 ≤ (calculateOvertime clockIn clockOut hourlyRate).ot2Hours := by
  have hn := periodHours_nonneg clockIn clockOut (8 * msPerHour) (17 * msPerHour)
  have he := periodHours_nonneg clockIn clockOut (17 * msPerHour) 86399999
  have hni := periodHours_nonneg clockIn clockOut 0 (8 * msPerHour)
  rw [calculateOvertime_normalHours, calculateOvertime_ot1_5Hours, calculateOvertime_ot2Hours]
  rw [min_eq_left hcap, max_eq_right hn, max_eq_right he, max_eq_right hni]
  refine ⟨?_, hn, he, hni⟩
  rw [periodHours_eq_ovRaw, periodHours_eq_ovRaw, periodHours_eq_ovRaw,
    div_add_div_same, div_add_div_same]
  have key : ovRaw clockIn clockOut 0 (8 * msPerHour) +
      ovRaw clockIn clockOut (8 * msPerHour) (17 * msPerHour) +
      ovRaw clockIn clockOut (17 * msPerHour) 86399999 = clockOut - clockIn := by
    rw [ovRaw_split clockIn clockOut 0 (8 * msPerHour) (17 * msPerHour)
        (by norm_num [msPerHour]) (by norm_num [msPerHour]),
      ovRaw_split clockIn clockOut 0 (17 * msPerHour) 86399999
        (by norm_num [msPerHour]) (by norm_num [msPerHour])]
    unfold ovRaw
    rw [max_eq_left h0, min_eq_left h2, if_pos h1]
  rw [show ovRaw clockIn clockOut (8 * msPerHour) (17 * msPerHour) +
      ovRaw clockIn clockOut (17 * msPerHour) 86399999 +
      ovRaw clockIn clockOut 0 (8 * msPerHour) = clockOut - clockIn from by linarith [key]]

/-- Claim C5 witness: the amended theorem applied to the interval
09:00-19:00, whose tier totals 8 + 2 + 0 sum to the elapsed 10 hours. -/
theorem C5_witness :
    ((0 : ℚ) ≤ 32400000 ∧ (32400000 : ℚ) < 68400000 ∧ (68400000 : ℚ) ≤ 86399999 ∧
      periodHours 32400000 68400000 (8 * msPerHour) (17 * msPerHour) ≤ 8) ∧
    ((calculateOvertime 32400000 68400000 1).normalHours +
        (calculateOvertime 32400000 68400000 1).ot1_5Hours +
        (calculateOvertime 32400000 68400000 1).ot2Hours =
      ((68400000 : ℚ) - 32400000) / msPerHour ∧
    0 ≤ (calculateOvertime 32400000 68400000 1).normalHours ∧
    0 ≤ (calculateOvertime 32400000 68400000 1).ot1_5Hours ∧
    0 ≤ (calculateOvertime 32400000 68400000 1).ot2Hours) :=
  ⟨⟨by norm_num, by norm_num, by norm_num,
      by norm_num [periodHours, msPerHour, max_def, min_def]⟩,
    C5_tier_sum 32400000 68400000 1 (by norm_num) (by norm_num) (by norm_num)
      (by norm_num [periodHours, msPerHour, max_def, min_def])⟩

/-- Claim C6 (confirmed): for every single-day input interval and every
nonnegative break, the NORMAL bucket is at most 8 hours both before the
break deduction (the `Math.min(hoursInPeriod, 8)` cap) and after it (the
deduction only lowers the bucket, clamped at 0). -/
theorem C6_normal_capped (clockIn clockOut hourlyRate b : ℚ) (hb : 0 ≤ b) :
    (calculateOvertime clockIn clockOut hourlyRate).normalHours ≤ 8 ∧
    (applyBreakAdjustment (calculateOvertime clockIn clockOut hourlyRate) b).normalHours ≤ 8 := by
  have hpre : (calculateOvertime clockIn clockOut hourlyRate).normalHours ≤ 8 := by
    rw [calculateOvertime_normalHours]
    exact max_le (by norm_num) (min_le_right _ _)
  refine ⟨hpre, ?_⟩
  rw [(applyBreakAdjustment_fields (calculateOvertime clockIn clockOut hourlyRate) b).1]
  have hb60 : 0 ≤ b / 60 := by positivity
  exact max_le (by norm_num) (by linarith)

/-- Claim C6 witness: the cap at the interval 09:00-19:00 with a one-hour
break (8 ≤ 8 before, 7 ≤ 8 after). -/
theorem C6_witness :
    (0 : ℚ) ≤ 60 ∧
    ((calculateOvertime 32400000 68400000 10).normalHours ≤ 8 ∧
      (applyBreakAdjustment (calculateOvertime 32400000 68400000 10) 60).normalHours ≤ 8) :=
  ⟨by norm_num, C6_normal_capped 32400000 68400000 10 60 (by norm_num)⟩

/-- Claim C7 (corrected), counterexample to the claim as stated: a
submission whose clockOut is null derives its fields from the wall-clock
time of the submission (`new Date()`), so the same WorkInterval submitted
at 17:00 and at 19:00 yields different derived fields (8 vs 10 total
hours). -/
theorem C7_counterexample :
    openInput0.clockOut = none ∧
    (deriveTimesheet openInput0 61200000 1).totalHours = 8 ∧
    (deriveTimesheet openInput0 68400000 1).totalHours = 10 ∧
    deriveTimesheet openInput0 61200000 1 ≠ deriveTimesheet openInput0 68400000 1 := by
  have h1 : (deriveTimesheet openInput0 61200000 1).totalHours = 8 := by
    norm_num [deriveTimesheet, openInput0, applyBreakAdjustment, calculateOvertime,
      periodHours, msPerHour, max_def, min_def]
  have h2 : (deriveTimesheet openInput0 68400000 1).totalHours = 10 := by
    norm_num [deriveTimesheet, openInput0, applyBreakAdjustment, calculateOvertime,
      periodHours, msPerHour, max_def, min_def]
  refine ⟨rfl, h1, h2, fun h => ?_⟩
  rw [h, h2] at h1
  norm_num at h1

/-- Claim C7 (amended): when the submitted clockOut is non-null, the
derived fields are a deterministic function of the submitted input and the
employee's hourly rate alone — two submissions of the same WorkInterval
yield identical derived fields and identical stored rows regardless of
when they run; with a null clockOut the current time enters the
derivation. -/
theorem C7_deterministic (employeeId : ℕ) (date : ℤ) (clockIn t b : ℚ)
    (pa : Option ℕ) (now now2 hourlyRate : ℚ) :
    deriveTimesheet ⟨employeeId, date, clockIn, some t, b, pa⟩ now hourlyRate =
      deriveTimesheet ⟨employeeId, date, clockIn, some t, b, pa⟩ now2 hourlyRate ∧
    mkEntry ⟨employeeId, date, clockIn, some t, b, pa⟩ now hourlyRate =
      mkEntry ⟨employeeId, date, clockIn, some t, b, pa⟩ now2 hourlyRate :=
  ⟨rfl, rfl⟩

/-- Claim C1 (corrected), counterexample to the claim as stated: the POST
handler's upsert carries no status guard and no ConflictError path; a
resubmission keyed to an APPROVED entry succeeds and replaces the stored
row, resetting its status to PENDING — the stored entry is changed, not
left unchanged. -/
theorem C1_counterexample :
    approvedLedger (1, 0) = some approvedEntry0 ∧
    approvedEntry0.status = .APPROVED ∧
    ((submitTimesheet approvedLedger resubmitInput0 0 1) (1, 0)).map TimesheetEntry.status =
      some .PENDING ∧
    (submitTimesheet approvedLedger resubmitInput0 0 1) (1, 0) ≠ approvedLedger (1, 0) := by
  have h1 : (submitTimesheet approvedLedger resubmitInput0 0 1) (1, 0) =
      some (mkEntry resubmitInput0 0 1) := by
    simp [submitTimesheet, resubmitInput0]
  have h2 : approvedLedger (1, 0) = some approvedEntry0 := by
    simp [approvedLedger]
  refine ⟨h2, rfl, ?_, ?_⟩
  · rw [h1]
    rfl
  · rw [h1, h2]
    intro hc
    have hst := congrArg TimesheetEntry.status (Option.some.inj hc)
    simp [mkEntry, approvedEntry0] at hst

/-- Claim C1 (amended): resubmission against an APPROVED entry does not
fail; the upsert unconditionally replaces the stored row at
(employeeId, date) with the freshly derived one, resetting the status to
PENDING, so the stored entry is changed whenever it was APPROVED. -/
theorem C1_approved_overwritten (L : Ledger) (inp : SubmitInput) (now hourlyRate : ℚ)
    (e : TimesheetEntry) (hL : L (inp.employeeId, inp.date) = some e)
    (he : e.status = .APPROVED) :
    submitTimesheet L inp now hourlyRate (inp.employeeId, inp.date) =
      some (mkEntry inp now hourlyRate) ∧
    (mkEntry inp now hourlyRate).status = .PENDING ∧
    submitTimesheet L inp now hourlyRate (inp.employeeId, inp.date) ≠
      L (inp.employeeId, inp.date) := by
  have h1 : submitTimesheet L inp now hourlyRate (inp.employeeId, inp.date) =
      some (mkEntry inp now hourlyRate) := by
    simp [submitTimesheet]
  refine ⟨h1, rfl, ?_⟩
  rw [h1, hL]
  intro hc
  have hst := congrArg TimesheetEntry.status (Option.some.inj hc)
  rw [he] at hst
  simp [mkEntry] at hst

/-- Claim C1 witness: the amended theorem applied to a ledger holding an
APPROVED entry at key (1, 0). -/
theorem C1_witness :
    (approvedLedger (resubmitInput0.employeeId, resubmitInput0.date) = some approvedEntry0 ∧
      approvedEntry0.status = .APPROVED) ∧
    (submitTimesheet approvedLedger resubmitInput0 0 1
        (resubmitInput0.employeeId, resubmitInput0.date) =
      some (mkEntry resubmitInput0 0 1) ∧
    (mkEntry resubmitInput0 0 1).status = .PENDING ∧
    submitTimesheet approvedLedger resubmitInput0 0 1
        (resubmitInput0.employeeId, resubmitInput0.date) ≠
      approvedLedger (resubmitInput0.employeeId, resubmitInput0.date)) :=
  ⟨⟨by simp [approvedLedger, resubmitInput0], rfl⟩,
    C1_approved_overwritten approvedLedger resubmitInput0 0 1 approvedEntry0
      (by simp [approvedLedger, resubmitInput0]) rfl⟩

/-- Claim C3 (corrected), counterexample to the claim as stated: the POST
handler performs no interval validation and has no ValidationError path; a
submission whose clock-out (09:00) precedes its clock-in (17:00) is
accepted and a timesheet row is created for it. -/
theorem C3_counterexample :
    invalidInput0.clockOut = some 32400000 ∧
    invalidInput0.clockIn = 61200000 ∧
    (32400000 : ℚ) < 61200000 ∧
    emptyLedger (1, 0) = none ∧
    (submitTimesheet emptyLedger invalidInput0 0 1) (1, 0) =
      some (mkEntry invalidInput0 0 1) ∧
    (submitTimesheet emptyLedger invalidInput0 0 1) (1, 0) ≠ none := by
  have h1 : (submitTimesheet emptyLedger invalidInput0 0 1) (1, 0) =
      some (mkEntry invalidInput0 0 1) := by
    simp [submitTimesheet, invalidInput0]
  refine ⟨rfl, rfl, by norm_num, rfl, h1, ?_⟩
  rw [h1]
  simp

/-- Claim C3 (amended): an interval whose clock-out precedes (or equals)
its clock-in is not rejected — no validation runs before the write; the
row is still created or updated, with all tier-hour fields and totalHours
clamped to 0 by the overlap formula and the Math.max guards, and status
PENDING. -/
theorem C3_invalid_interval_written (L : Ledger) (inp : SubmitInput)
    (now hourlyRate t : ℚ) (hco : inp.clockOut = some t) (hle : t ≤ inp.clockIn)
    (hb : 0 ≤ inp.breakMinutes) :
    submitTimesheet L inp now hourlyRate (inp.employeeId, inp.date) =
      some (mkEntry inp now hourlyRate) ∧
    (mkEntry inp now hourlyRate).status = .PENDING ∧
    (mkEntry inp now hourlyRate).normalHours = 0 ∧
    (mkEntry inp now hourlyRate).ot1_5Hours = 0 ∧
    (mkEntry inp now hourlyRate).ot2Hours = 0 ∧
    (mkEntry inp now hourlyRate).totalHours = 0 := by
  have h1 : submitTimesheet L inp now hourlyRate (inp.employeeId, inp.date) =
      some (mkEntry inp now hourlyRate) := by
    simp [submitTimesheet]
  have hct : inp.clockOut.getD now = t := by rw [hco]; rfl
  have hderive : deriveTimesheet inp now hourlyRate =
      applyBreakAdjustment (calculateOvertime inp.clockIn t hourlyRate) inp.breakMinutes := by
    unfold deriveTimesheet
    rw [hct]
  have hb60 : 0 ≤ inp.breakMinutes / 60 := by positivity
  have hnormal : (calculateOvertime inp.clockIn t hourlyRate).normalHours = 0 := by
    rw [calculateOvertime_normalHours, periodHours_zero_of_le _ _ _ _ hle]
    norm_num
  have hevening : (calculateOvertime inp.clockIn t hourlyRate).ot1_5Hours = 0 := by
    rw [calculateOvertime_ot1_5Hours, periodHours_zero_of_le _ _ _ _ hle]
    norm_num
  have hnight : (calculateOvertime inp.clockIn t hourlyRate).ot2Hours = 0 := by
    rw [calculateOvertime_ot2Hours, periodHours_zero_of_le _ _ _ _ hle]
    norm_num
  have htotal : (calculateOvertime inp.clockIn t hourlyRate).totalHours = 0 := by
    rw [calculateOvertime_totalHours]
    have hdiv : (t - inp.clockIn) / msPerHour ≤ 0 :=
      div_nonpos_of_nonpos_of_nonneg (by linarith) (le_of_lt msPerHour_pos)
    exact max_eq_left hdiv
  have hfields := applyBreakAdjustment_fields (calculateOvertime inp.clockIn t hourlyRate)
    inp.breakMinutes
  refine ⟨h1, rfl, ?_, ?_, ?_, ?_⟩
  · show (deriveTimesheet inp now hourlyRate).normalHours = 0
    rw [hderive, hfields.1, hnormal]
    exact max_eq_left (by linarith)
  · show (deriveTimesheet inp now hourlyRate).ot1_5Hours = 0
    rw [hderive, hfields.2.1, hevening]
  · show (deriveTimesheet inp now hourlyRate).ot2Hours = 0
    rw [hderive, hfields.2.2.1, hnight]
  · show (deriveTimesheet inp now hourlyRate).totalHours = 0
    rw [hderive, hfields.2.2.2.1, htotal]
    exact max_eq_left (by linarith)

/-- Claim C3 witness: the amended theorem applied to the submission whose
clock-out 09:00 precedes its clock-in 17:00. -/
theorem C3_witness :
    (invalidInput0.clockOut = some 32400000 ∧ (32400000 : ℚ) ≤ invalidInput0.clockIn ∧
      0 ≤ invalidInput0.breakMinutes) ∧
    (submitTimesheet emptyLedger invalidInput0 0 1
        (invalidInput0.employeeId, invalidInput0.date) =
      some (mkEntry invalidInput0 0 1) ∧
    (mkEntry invalidInput0 0 1).status = .PENDING ∧
    (mkEntry invalidInput0 0 1).normalHours = 0 ∧
    (mkEntry invalidInput0 0 1).ot1_5Hours = 0 ∧
    (mkEntry invalidInput0 0 1).ot2Hours = 0 ∧
    (mkEntry invalidInput0 0 1).totalHours = 0) :=
  ⟨⟨rfl, by norm_num [invalidInput0], by norm_num [invalidInput0]⟩,
    C3_invalid_interval_written emptyLedger invalidInput0 0 1 32400000 rfl
      (by norm_num [invalidInput0]) (by norm_num [invalidInput0])⟩

/-- Claim C2 (confirmed): the trigger accrues
delta = normal_hours × hourly_rate + calculate_overtime_pay(...) — i.e.
normalHours × rate + the entry's overtime pay — onto the owning project's
actual_cost exactly when the row's status changes from a non-APPROVED
value to APPROVED; other projects are untouched; an update whose OLD
status is already APPROVED, or whose NEW status is not APPROVED, accrues
nothing; hence two serialized approvals of the same row (the row lock
serializes concurrent UPDATEs) accrue exactly once. -/
theorem C2_cost_accrual (rates : ℕ → ℚ) (assignments : ℕ → Option ℕ)
    (row : TimesheetRow) (projects : ℕ → ℚ) (aid pid : ℕ)
    (hrow : row.project_assignment_id = some aid) (hasg : assignments aid = some pid)
    (hst : row.status ≠ .APPROVED) :
    (approveTimesheet rates assignments (row, projects)).2 pid =
      projects pid +
        (row.normal_hours * rates row.employee_id +
          calculate_overtime_pay row.normal_hours row.ot1_5_hours row.ot2_hours
            (rates row.employee_id)) ∧
    (∀ p, p ≠ pid → (approveTimesheet rates assignments (row, projects)).2 p = projects p) ∧
    (approveTimesheet rates assignments (approveTimesheet rates assignments (row, projects))).2 =
      (approveTimesheet rates assignments (row, projects)).2 ∧
    (∀ old new : TimesheetRow, ∀ P : ℕ → ℚ, old.status = .APPROVED →
      update_project_actual_cost rates assignments old new P = P) ∧
    (∀ old new : TimesheetRow, ∀ P : ℕ → ℚ, new.status ≠ .APPROVED →
      update_project_actual_cost rates assignments old new P = P) := by
  refine ⟨?_, ?_, ?_, ?_, ?_⟩
  · simp [approveTimesheet, update_project_actual_cost, hrow, hasg, hst]
  · intro p hp
    simp [approveTimesheet, update_project_actual_cost, hrow, hasg, hst, hp]
  · simp [approveTimesheet, update_project_actual_cost]
  · intro old new P hold
    simp [update_project_actual_cost, hold]
  · intro old new P hnew
    simp [update_project_actual_cost, hnew]

/-- Concrete hourly-rate column: every employee earns 10 per hour. -/
def rates0 : ℕ → ℚ := fun _ => 10

/-- Concrete assignment table: assignment 5 belongs to project 7. -/
def assignments0 : ℕ → Option ℕ := fun a => if a = 5 then some 7 else none

/-- Concrete PENDING row for employee 1 on assignment 5. -/
def pendingRow0 : TimesheetRow := ⟨.PENDING, 8, 2, 0, 1, some 5⟩

/-- Concrete project cost column: every project has accrued 100 so far. -/
def projects0 : ℕ → ℚ := fun _ => 100

/-- Claim C2 witness: approving a concrete PENDING row on assignment 5
(project 7) fires the accrual there, and all the conclusions of the claim
theorem hold at that input. -/
theorem C2_witness :
    (pendingRow0.project_assignment_id = some 5 ∧ assignments0 5 = some 7 ∧
      pendingRow0.status ≠ .APPROVED) ∧
    ((approveTimesheet rates0 assignments0 (pendingRow0, projects0)).2 7 =
      projects0 7 +
        (pendingRow0.normal_hours * rates0 pendingRow0.employee_id +
          calculate_overtime_pay pendingRow0.normal_hours pendingRow0.ot1_5_hours
            pendingRow0.ot2_hours (rates0 pendingRow0.employee_id)) ∧
    (∀ p, p ≠ 7 → (approveTimesheet rates0 assignments0 (pendingRow0, projects0)).2 p =
      projects0 p) ∧
    (approveTimesheet rates0 assignments0
        (approveTimesheet rates0 assignments0 (pendingRow0, projects0))).2 =
      (approveTimesheet rates0 assignments0 (pendingRow0, projects0)).2 ∧
    (∀ old new : TimesheetRow, ∀ P : ℕ → ℚ, old.status = .APPROVED →
      update_project_actual_cost rates0 assignments0 old new P = P) ∧
    (∀ old new : TimesheetRow, ∀ P : ℕ → ℚ, new.status ≠ .APPROVED →
      update_project_actual_cost rates0 assignments0 old new P = P)) :=
  ⟨⟨rfl, by simp [assignments0], by simp [pendingRow0]⟩,
    C2_cost_accrual rates0 assignments0 pendingRow0 projects0 5 7 rfl
      (by simp [assignments0]) (by simp [pendingRow0])⟩

/-- Claim C8 (confirmed against the spec model): getPayrollSummary sums
hour and pay totals over exactly the APPROVED entries of the given
employee whose date lies in the inclusive range — a matching row adds its
hours and its pay contribution, any non-matching row (in particular any
PENDING or REJECTED row) contributes nothing — and the empty row set
yields all-zero totals, not an error. -/
theorem C8_payroll_summary (emp : ℕ) (startDate endDate : ℤ) (hourlyRate : ℚ)
    (r : PayrollRow) (rows : List PayrollRow) (employeeId : ℕ) (date : ℤ) (n ev ni : ℚ) :
    getPayrollSummary [] emp startDate endDate hourlyRate = ⟨0, 0, 0, 0⟩ ∧
    getPayrollSummary (r :: rows) emp startDate endDate hourlyRate =
      (if r.employeeId = emp ∧ startDate ≤ r.date ∧ r.date ≤ endDate ∧
          r.status = .APPROVED then
        { normalHours := r.normalHours +
            (getPayrollSummary rows emp startDate endDate hourlyRate).normalHours
          eveningHours := r.eveningHours +
            (getPayrollSummary rows emp startDate endDate hourlyRate).eveningHours
          nightHours := r.nightHours +
            (getPayrollSummary rows emp startDate endDate hourlyRate).nightHours
          pay := r.normalHours * hourlyRate + r.eveningHours * hourlyRate * 1.5 +
            r.nightHours * hourlyRate * 2 +
            (getPayrollSummary rows emp startDate endDate hourlyRate).pay }
      else getPayrollSummary rows emp startDate endDate hourlyRate) ∧
    getPayrollSummary (⟨employeeId, date, n, ev, ni, .PENDING⟩ :: rows)
        emp startDate endDate hourlyRate =
      getPayrollSummary rows emp startDate endDate hourlyRate ∧
    getPayrollSummary (⟨employeeId, date, n, ev, ni, .REJECTED⟩ :: rows)
        emp startDate endDate hourlyRate =
      getPayrollSummary rows emp startDate endDate hourlyRate := by
  refine ⟨?_, ?_, ?_, ?_⟩
  · simp [getPayrollSummary]
  · by_cases hc : r.employeeId = emp ∧ startDate ≤ r.date ∧ r.date ≤ endDate ∧
        r.status = .APPROVED
    · simp [getPayrollSummary, List.filter, hc]
    · simp [getPayrollSummary, List.filter, hc]
  · simp [getPayrollSummary, List.filter]
  · simp [getPayrollSummary, List.filter]

/-- Claim C9 (confirmed): hasPermission returns true exactly when the user
is non-null and the user's permissions list contains the requested
permission string or the wildcard; a null user is denied everything. -/
theorem C9_hasPermission_iff (user : Option AuthUser) (permission : String) :
    (hasPermission user permission = true ↔
      ∃ u, user = some u ∧
        (permission ∈ u.permissions ∨ "*" ∈ u.permissions)) ∧
    hasPermission none permission = false := by
  refine ⟨?_, rfl⟩
  cases user with
  | none => simp [hasPermission]
  | some u => simp [hasPermission, List.elem_iff]

/-- Claim C10 (confirmed): both employee-creation handlers derive the
stored hourlyRate from the submitted basicSalary as basicSalary × 12 /
2288, ignoring any hourlyRate carried by the request (the first handler
overrides the spread body, the second never reads one); the second handler
additionally rounds the quotient to two decimal places.  For basicSalary
5000 the stored rates are 3750/143 (≈ 26.2238) and 26.22 = 1311/50. -/
theorem C10_hourly_rate (basicSalary : ℚ) (r r2 : Option ℚ) :
    (createEmployee1 ⟨basicSalary, r⟩).hourlyRate = basicSalary * 12 / 2288 ∧
    (createEmployee2 ⟨basicSalary, r⟩).hourlyRate = roundTo2 (basicSalary * 12 / 2288) ∧
    createEmployee1 ⟨basicSalary, r⟩ = createEmployee1 ⟨basicSalary, r2⟩ ∧
    createEmployee2 ⟨basicSalary, r⟩ = createEmployee2 ⟨basicSalary, r2⟩ ∧
    (createEmployee1 ⟨5000, none⟩).hourlyRate = 3750 / 143 ∧
    (createEmployee2 ⟨5000, none⟩).hourlyRate = 1311 / 50 := by
  refine ⟨rfl, rfl, rfl, rfl, by norm_num [createEmployee1], ?_⟩
  norm_num [createEmployee2, roundTo2, round_eq]

end HRM
